import Mathlib

/-!
Verification of `art::QuasiAtomic` (runtime/base/quasi_atomic.h): quasi-atomic
64-bit reads, writes and compare-and-swap, plus the constructor publication
fence.  The operations are embedded as pure state transformers over a
byte-addressed-by-word memory; each quasi-atomic operation is, per the
per-architecture instruction choice of the source, a single indivisible step.
-/

namespace QuasiAtomic

/-- Instruction set identifiers, the argument type of `NeedSwapMutexes`
(declared in arch/instruction_set.h and supplied by the surrounding runtime). -/
inductive InstructionSet where
  | kNone
  | kArm
  | kArm64
  | kThumb2
  | kX86
  | kX86_64
  | kRiscv64
deriving DecidableEq

/-- The preprocessor configuration that selects the per-architecture branch of
`Read64` and `Write64` in the source. -/
inductive ArchConfig where
  | lp64        -- __LP64__: a plain 64-bit load/store is wide and does not tear
  | armLpae     -- 32-bit ARM with __ARM_FEATURE_LPAE: ldrd / strd
  | armLlsc     -- 32-bit ARM without LPAE: ldrexd / strexd retry loop
  | i386        -- 32-bit x86: SSE movq
  | unsupported -- no wide atomic instruction: LOG(FATAL)
deriving DecidableEq

/-- Source: `NeedSwapMutexes(isa)` — "TODO: Remove this function now that mips
support has been removed."  It ignores its argument and returns false. -/
def NeedSwapMutexes (_isa : InstructionSet) : Bool :=
  false

/-- Source: `LongAtomicsUseMutexes(isa)` forwards to `NeedSwapMutexes`. -/
def LongAtomicsUseMutexes (isa : InstructionSet) : Bool :=
  NeedSwapMutexes isa

/-- Memory as a map from (64-bit-aligned) addresses to the int64 cell stored
there.  The facility never allocates or frees this storage. -/
def Mem : Type :=
  Nat → Int

/-- Update of one 64-bit cell. -/
def store (mem : Mem) (addr : Nat) (v : Int) : Mem :=
  fun a => if a = addr then v else mem a

/-- Modelled from the spec: `SwapMutexRead64` (its body lives in
quasi_atomic.cc, which is not among the provided sources) acquires the stripe
lock for `addr` and performs a plain read. -/
def SwapMutexRead64 (mem : Mem) (addr : Nat) : Int :=
  mem addr

/-- Modelled from the spec: `SwapMutexWrite64` acquires the stripe lock for
`addr` and performs a plain write. -/
def SwapMutexWrite64 (mem : Mem) (addr : Nat) (v : Int) : Mem :=
  store mem addr v

/-- Modelled from the spec: `SwapMutexCas64` acquires the stripe lock for
`addr` and performs a plain compare-and-conditionally-write. -/
def SwapMutexCas64 (old_value new_value : Int) (mem : Mem) (addr : Nat) : Bool × Mem :=
  if mem addr = old_value then (true, store mem addr new_value)
  else (false, mem)

/-- Source: `Read64(addr)` — if `!NeedSwapMutexes(kRuntimeISA)`, take the
per-architecture native branch (plain wide load under __LP64__, ldrd under
LPAE, ldrexd on other 32-bit ARM, movq on i386, and `LOG(FATAL)` on anything
else); otherwise call `SwapMutexRead64`.  The fatal branch is modelled as
`Except.error` carrying the diagnostic. -/
def Read64 (cfg : ArchConfig) (kRuntimeISA : InstructionSet) (mem : Mem) (addr : Nat) :
    Except String Int :=
  if !NeedSwapMutexes kRuntimeISA then
    match cfg with
    | .lp64 => .ok (mem addr)
    | .armLpae => .ok (mem addr)
    | .armLlsc => .ok (mem addr)
    | .i386 => .ok (mem addr)
    | .unsupported => .error "Unsupported architecture"
  else
    .ok (SwapMutexRead64 mem addr)

/-- Source: `Write64(addr, value)` — if `!NeedSwapMutexes(kRuntimeISA)`, take
the per-architecture native branch (plain wide store under __LP64__, strd under
LPAE, the ldrexd/strexd retry loop on other 32-bit ARM — see `strexdLoop` for
its iteration structure, whose net effect once the conditional store succeeds
is the store of `value` — movq on i386, and `LOG(FATAL)` on anything else);
otherwise call `SwapMutexWrite64`. -/
def Write64 (cfg : ArchConfig) (kRuntimeISA : InstructionSet) (mem : Mem) (addr : Nat)
    (value : Int) : Except String Mem :=
  if !NeedSwapMutexes kRuntimeISA then
    match cfg with
    | .lp64 => .ok (store mem addr value)
    | .armLpae => .ok (store mem addr value)
    | .armLlsc => .ok (store mem addr value)
    | .i386 => .ok (store mem addr value)
    | .unsupported => .error "Unsupported architecture"
  else
    .ok (SwapMutexWrite64 mem addr value)

/-- Source: `Cas64(old_value, new_value, addr)` — if
`!NeedSwapMutexes(kRuntimeISA)`, execute `__sync_bool_compare_and_swap`: in one
indivisible step, compare the cell with `old_value` and, when equal, replace it
with `new_value` and return true, otherwise leave memory unchanged and return
false; otherwise call `SwapMutexCas64`. -/
def Cas64 (kRuntimeISA : InstructionSet) (old_value new_value : Int) (mem : Mem)
    (addr : Nat) : Bool × Mem :=
  if !NeedSwapMutexes kRuntimeISA then
    if mem addr = old_value then (true, store mem addr new_value)
    else (false, mem)
  else
    SwapMutexCas64 old_value new_value mem addr

/-- Provenance map of the 8 bytes of one 64-bit cell: `none` marks a byte of
the initial contents, `some k` a byte produced by the k-th `Write64` call.
The header's guarantee (lines 42-47) is about which write each observed byte
came from, so the concurrency model tracks byte provenance. -/
def CellBytes : Type :=
  Fin 8 → Option Nat

/-- One `Write64` through the facility, as the single indivisible step the
chosen instruction performs (plain wide store under __LP64__, strd under LPAE,
a successful strexd, movq on i386): all 8 bytes are replaced at once, so all
carry the id of this write afterwards. -/
def write64Step (id : Nat) (_c : CellBytes) : CellBytes :=
  fun _ => some id

/-- The cell after an arbitrary interleaving prefix of `Write64` calls,
identified by their ids, starting from `c`. -/
def runWrites (ids : List Nat) (c : CellBytes) : CellBytes :=
  ids.foldl (fun c id => write64Step id c) c

/-- One `Read64` through the facility, likewise a single indivisible load: the
observation is the whole cell at one instant. -/
def read64Observe (c : CellBytes) : CellBytes :=
  c

/-- A torn observation: two bytes coming from two different writes. -/
def Torn (c : CellBytes) : Prop :=
  ∃ i j : Fin 8, ∃ a b : Nat, c i = some a ∧ c j = some b ∧ a ≠ b

/-- All bytes of the cell share one provenance. -/
def Uniform (c : CellBytes) : Prop :=
  ∀ i j : Fin 8, c i = c j

/-- Selector consultation `NeedSwapMutexes(kRuntimeISA)`, instrumented with a
running count of consultations. -/
def consultSelector (kRuntimeISA : InstructionSet) (count : Nat) : Bool × Nat :=
  (NeedSwapMutexes kRuntimeISA, count + 1)

/-- Which backend an operation routes to. -/
inductive Backend where
  | native
  | fallback
deriving DecidableEq

/-- The routing of `Read64`: one selector consultation, then the native branch
on `!NeedSwapMutexes(kRuntimeISA)` and the `SwapMutexRead64` branch otherwise. -/
def read64Backend (kRuntimeISA : InstructionSet) (count : Nat) : Backend × Nat :=
  let (s, count) := consultSelector kRuntimeISA count
  ((if !s then Backend.native else Backend.fallback), count)

/-- The routing of `Write64`, structured exactly as `Read64`'s. -/
def write64Backend (kRuntimeISA : InstructionSet) (count : Nat) : Backend × Nat :=
  let (s, count) := consultSelector kRuntimeISA count
  ((if !s then Backend.native else Backend.fallback), count)

/-- The routing of `Cas64`, structured exactly as `Read64`'s. -/
def cas64Backend (kRuntimeISA : InstructionSet) (count : Nat) : Backend × Nat :=
  let (s, count) := consultSelector kRuntimeISA count
  ((if !s then Backend.native else Backend.fallback), count)

/-- The ldrexd/strexd retry loop of `Write64` on 32-bit ARM without LPAE
(source lines 108-119).  `strexOk n` says whether the n-th strexd
(store-conditional) succeeds; that depends only on hardware interference, so it
is an oracle parameter.  Each iteration loads `prev` via ldrexd (the value is
discarded) and attempts the conditional store of `value`; the do/while repeats
while the status flag signals failure.  `fuel` bounds only the modelled
unrolling — the source loop itself has no bound — and the result is the final
memory together with the number of iterations executed. -/
def strexdLoop (strexOk : Nat → Bool) (mem : Mem) (addr : Nat) (value : Int) :
    Nat → Nat → Option (Mem × Nat)
  | 0, _ => none
  | fuel + 1, attempt =>
    let _prev := mem addr
    if strexOk attempt then some (store mem addr value, attempt + 1)
    else strexdLoop strexOk mem addr value fuel (attempt + 1)

/-- The kind of memory barrier `ThreadFenceForConstructor` emits, by
preprocessor branch: `dmb ishst` on aarch64 is exactly a store-store barrier;
every other branch executes `std::atomic_thread_fence(std::memory_order_release)`,
a release fence. -/
inductive BarrierKind where
  | storeStoreOnly
  | releaseFence
deriving DecidableEq

/-- Whether `ThreadFenceForConstructor` is compiled for aarch64. -/
inductive FenceConfig where
  | aarch64
  | other
deriving DecidableEq

/-- Source: `ThreadFenceForConstructor()` — `dmb ishst` under `__aarch64__`,
`std::atomic_thread_fence(std::memory_order_release)` otherwise. -/
def ThreadFenceForConstructor : FenceConfig → BarrierKind
  | .aarch64 => .storeStoreOnly
  | .other => .releaseFence

/-- Whether a barrier keeps stores issued before it from being reordered after
it (store-store ordering).  Both emitted barriers do. -/
def ordersStoreStore : BarrierKind → Bool
  | .storeStoreOnly => true
  | .releaseFence => true

/-- Whether a barrier additionally keeps loads issued before it from being
reordered after later stores.  A release fence does; a pure store-store
barrier such as `dmb ishst` does not, which is what makes the release fence
strictly stronger. -/
def ordersLoadStore : BarrierKind → Bool
  | .storeStoreOnly => false
  | .releaseFence => true

/-- The value returned by the n-th call to `NeedSwapMutexes` within one
process run.  The source function is `static constexpr` over `isa` alone, so
the call index cannot influence the result. -/
def needSwapMutexesCall (isa : InstructionSet) (_callIndex : Nat) : Bool :=
  NeedSwapMutexes isa

/-- The value returned by the n-th call to `LongAtomicsUseMutexes` within one
process run. -/
def longAtomicsUseMutexesCall (isa : InstructionSet) (_callIndex : Nat) : Bool :=
  LongAtomicsUseMutexes isa

/-- Source: `kSwapMutexCount = 32`, the number of mutexes striped across. -/
def kSwapMutexCount : Nat :=
  32

/-- Lifecycle state of the facility: inactive, or active with the number of
locks currently in the mutex pool. -/
inductive FacilityState where
  | inactive
  | active (poolSize : Nat)
deriving DecidableEq

/-- Modelled from the spec: `Startup` (its body lives in quasi_atomic.cc,
which is not among the provided sources) allocates the pool of exactly
`kSwapMutexCount` locks when the fallback strategy is selected, and is
otherwise a no-op on the pool; either way the facility becomes active. -/
def Startup (fallbackSelected : Bool) : FacilityState :=
  if fallbackSelected then .active kSwapMutexCount else .active 0

/-- Modelled from the spec: `Shutdown` releases all pool resources and
deactivates the facility. -/
def Shutdown (_s : FacilityState) : FacilityState :=
  .inactive

/-- An operation issued through the facility while it is active. -/
inductive FacilityOp where
  | read
  | write
  | cas
deriving DecidableEq

/-- Effect of one operation on the lifecycle state: `Read64`, `Write64` and
`Cas64` only acquire and release stripe locks — none adds or removes a pool
entry. -/
def applyOp (_op : FacilityOp) (s : FacilityState) : FacilityState :=
  s

/-- The lifecycle state after a sequence of operations between `Startup` and
`Shutdown`. -/
def runOps (ops : List FacilityOp) (s : FacilityState) : FacilityState :=
  ops.foldl (fun s op => applyOp op s) s

end QuasiAtomic

open QuasiAtomic

/-- C1: for every expected value, new value and address, `Cas64` returns true
and sets the cell to the new value if the cell equalled the expected value at
the check instant, returns false leaving memory unchanged otherwise, and a
false return guarantees the observed value was not the expected one (no
spurious failure). -/
theorem c1_cas64_correct (isa : InstructionSet) (old_value new_value : Int)
    (mem : Mem) (addr : Nat) :
    (mem addr = old_value →
      Cas64 isa old_value new_value mem addr = (true, store mem addr new_value)) ∧
    (mem addr ≠ old_value →
      Cas64 isa old_value new_value mem addr = (false, mem)) ∧
    ((Cas64 isa old_value new_value mem addr).1 = false → mem addr ≠ old_value) := by
  refine ⟨fun h => ?_, fun h => ?_, fun h => ?_⟩
  · simp [Cas64, NeedSwapMutexes, h]
  · simp [Cas64, NeedSwapMutexes, h]
  · intro hEq
    simp [Cas64, NeedSwapMutexes, hEq] at h

/-- Witness for C1, mirroring the spec's scenario 2: a cell holding 100, a
successful Cas64(100, 200) then a failed Cas64(100, 300). -/
theorem c1_cas64_correct_witness :
    Cas64 .kArm64 100 200 (fun _ => 100) 0 = (true, store (fun _ => 100) 0 200) ∧
    Cas64 .kArm64 100 300 (store (fun _ => 100) 0 200) 0 = (false, store (fun _ => 100) 0 200) := by
  constructor
  · exact (c1_cas64_correct .kArm64 100 200 (fun _ => 100) 0).1 rfl
  · exact (c1_cas64_correct .kArm64 100 300 (store (fun _ => 100) 0 200) 0).2.1
      (by simp [store])

/-- Helper: a write step leaves the cell uniform, and `runWrites` preserves
uniformity from any starting cell. -/
theorem runWrites_uniform (ids : List Nat) (c : CellBytes) (h : Uniform c) :
    Uniform (runWrites ids c) := by
  induction ids generalizing c with
  | nil => exact h
  | cons id rest ih =>
    have : runWrites (id :: rest) c = runWrites rest (write64Step id c) := rfl
    rw [this]
    exact ih _ (fun i j => rfl)

/-- Helper: a uniform cell is not torn. -/
theorem uniform_not_torn (c : CellBytes) (h : Uniform c) : ¬ Torn c := by
  rintro ⟨i, j, a, b, hi, hj, hab⟩
  have := h i j
  rw [hi, hj] at this
  exact hab (Option.some.inj this)

/-- C2: starting from a cell whose bytes have a single provenance, after any
interleaving of `Write64` calls (each an indivisible whole-cell step, values A
and B or any others), a `Read64` at any instant never observes a value
assembled from bytes of two different writes. -/
theorem c2_no_tearing (c : CellBytes) (h : Uniform c) (ids : List Nat) :
    ¬ Torn (read64Observe (runWrites ids c)) :=
  uniform_not_torn _ (runWrites_uniform ids c h)

/-- Witness for C2: two interleaved writes (ids 0 and 1) over fresh memory;
the read observation is not torn. -/
theorem c2_no_tearing_witness :
    ¬ Torn (read64Observe (runWrites [0, 1] (fun _ => none))) :=
  c2_no_tearing (fun _ => none) (fun _ _ => rfl) [0, 1]

/-- C3: on every supported configuration, `Write64(addr, v)` followed by
`Read64(addr)` with no intervening write returns exactly v. -/
theorem c3_write_then_read (cfg : ArchConfig) (isa : InstructionSet) (mem : Mem)
    (addr : Nat) (v : Int) (h : cfg ≠ ArchConfig.unsupported) :
    ∃ mem', Write64 cfg isa mem addr v = .ok mem' ∧ Read64 cfg isa mem' addr = .ok v := by
  refine ⟨store mem addr v, ?_, ?_⟩
  · cases cfg <;> simp_all [Write64, NeedSwapMutexes]
  · cases cfg <;> simp_all [Read64, NeedSwapMutexes, store]

/-- Witness for C3, mirroring the spec's scenario 1: write 0x1122334455667788
and read it back. -/
theorem c3_write_then_read_witness :
    ∃ mem', Write64 .lp64 .kArm64 (fun _ => 0) 8 0x1122334455667788 = .ok mem' ∧
      Read64 .lp64 .kArm64 mem' 8 = .ok 0x1122334455667788 :=
  c3_write_then_read .lp64 .kArm64 (fun _ => 0) 8 0x1122334455667788 (by decide)

/-- C4: `NeedSwapMutexes` (and so `LongAtomicsUseMutexes`) returns false for
every instruction set, so every `Read64`, `Write64` and `Cas64` call routes to
the native branch and the mutex-striped fallback functions are never invoked. -/
theorem c4_never_fallback (isa : InstructionSet) :
    NeedSwapMutexes isa = false ∧ LongAtomicsUseMutexes isa = false ∧
    (read64Backend isa 0).1 = Backend.native ∧
    (write64Backend isa 0).1 = Backend.native ∧
    (cas64Backend isa 0).1 = Backend.native := by
  refine ⟨rfl, rfl, rfl, rfl, rfl⟩

/-- C5: every `Read64`, `Write64` and `Cas64` call consults the strategy
selector exactly once, and routes to the mutex-striped fallback variant if and
only if the selector reports that the architecture requires the fallback;
otherwise it routes to the native backend. -/
theorem c5_routing (isa : InstructionSet) :
    ((read64Backend isa 0).2 = 1 ∧ (write64Backend isa 0).2 = 1 ∧
      (cas64Backend isa 0).2 = 1) ∧
    ((read64Backend isa 0).1 = Backend.fallback ↔ NeedSwapMutexes isa = true) ∧
    ((write64Backend isa 0).1 = Backend.fallback ↔ NeedSwapMutexes isa = true) ∧
    ((cas64Backend isa 0).1 = Backend.fallback ↔ NeedSwapMutexes isa = true) ∧
    (NeedSwapMutexes isa = false → (read64Backend isa 0).1 = Backend.native ∧
      (write64Backend isa 0).1 = Backend.native ∧
      (cas64Backend isa 0).1 = Backend.native) := by
  refine ⟨⟨rfl, rfl, rfl⟩, ?_, ?_, ?_, fun _ => ⟨rfl, rfl, rfl⟩⟩ <;>
    simp [read64Backend, write64Backend, cas64Backend, consultSelector, NeedSwapMutexes]

/-- C6: the architecture policy is pure and stable — any two calls to
`NeedSwapMutexes` (the spec's RequiresFallback, exposed as
`LongAtomicsUseMutexes`) with the same architecture within one run return the
same boolean. -/
theorem c6_policy_stable (isa : InstructionSet) (i j : Nat) :
    needSwapMutexesCall isa i = needSwapMutexesCall isa j ∧
    longAtomicsUseMutexesCall isa i = longAtomicsUseMutexesCall isa j :=
  ⟨rfl, rfl⟩

/-- C7: on a configuration with no wide atomic instruction path, and with the
fallback not selected for any instruction set, `Read64` and `Write64` abort
with the "Unsupported architecture" diagnostic rather than returning a
recoverable value. -/
theorem c7_unsupported_fatal (isa : InstructionSet) (mem : Mem) (addr : Nat) (v : Int) :
    NeedSwapMutexes isa = false ∧
    Read64 ArchConfig.unsupported isa mem addr = .error "Unsupported architecture" ∧
    Write64 ArchConfig.unsupported isa mem addr v = .error "Unsupported architecture" := by
  refine ⟨rfl, ?_, ?_⟩ <;> simp [Read64, Write64, NeedSwapMutexes]

/-- Counterexample to C8 as stated: on every non-aarch64 configuration the
emitted fence is `std::atomic_thread_fence(std::memory_order_release)`, which
is not the bare store-store barrier — unlike `dmb ishst` it also orders prior
loads before later stores, i.e. it is strictly stronger. -/
theorem c8_fence_counterexample :
    ThreadFenceForConstructor FenceConfig.other ≠ BarrierKind.storeStoreOnly ∧
    ordersLoadStore (ThreadFenceForConstructor FenceConfig.other) = true ∧
    ordersLoadStore BarrierKind.storeStoreOnly = false := by
  refine ⟨?_, rfl, rfl⟩
  intro h
  exact BarrierKind.noConfusion h

/-- C8 amended: `ThreadFenceForConstructor` always emits a barrier with
store-store ordering — exactly the store-store barrier `dmb ishst` on aarch64,
and on every other configuration a release fence, which is at least as strong
(it additionally orders prior loads before later stores). -/
theorem c8_fence_amended (cfg : FenceConfig) :
    ordersStoreStore (ThreadFenceForConstructor cfg) = true ∧
    ThreadFenceForConstructor FenceConfig.aarch64 = BarrierKind.storeStoreOnly ∧
    ThreadFenceForConstructor FenceConfig.other = BarrierKind.releaseFence := by
  cases cfg <;> exact ⟨rfl, rfl, rfl⟩

/-- Helper: the strexd loop, started at any attempt index, runs until the
first successful store-conditional and returns the memory with `value`
stored, having executed one iteration per attempt. -/
theorem strexdLoop_first_success (strexOk : Nat → Bool) (mem : Mem) (addr : Nat)
    (value : Int) :
    ∀ (n fuel attempt : Nat),
      (∀ m, attempt ≤ m → m < attempt + n → strexOk m = false) →
      strexOk (attempt + n) = true → n < fuel →
      strexdLoop strexOk mem addr value fuel attempt =
        some (store mem addr value, attempt + n + 1) := by
  intro n
  induction n with
  | zero =>
    intro fuel attempt _ hs hfuel
    match fuel, hfuel with
    | fuel + 1, _ =>
      simp only [strexdLoop]
      rw [Nat.add_zero] at hs
      simp [hs]
  | succ n ih =>
    intro fuel attempt hfail hs hfuel
    match fuel, hfuel with
    | fuel + 1, hfuel =>
      have h0 : strexOk attempt = false :=
        hfail attempt (Nat.le_refl _) (by omega)
      simp only [strexdLoop, h0, if_neg]
      have hfail' : ∀ m, attempt + 1 ≤ m → m < attempt + 1 + n → strexOk m = false := by
        intro m h1 h2
        exact hfail m (by omega) (by omega)
      have hs' : strexOk (attempt + 1 + n) = true := by
        have : attempt + 1 + n = attempt + (n + 1) := by omega
        rw [this]
        exact hs
      have := ih fuel (attempt + 1) hfail' hs' (by omega)
      rw [this]
      have : attempt + 1 + n + 1 = attempt + (n + 1) + 1 := by omega
      rw [this]
      simp

/-- Helper: whenever the strexd loop returns, the conditional store has
succeeded and the returned memory holds `value` at `addr`. -/
theorem strexdLoop_stores (strexOk : Nat → Bool) (mem : Mem) (addr : Nat) (value : Int) :
    ∀ (fuel attempt : Nat) (r : Mem × Nat),
      strexdLoop strexOk mem addr value fuel attempt = some r →
      r.1 = store mem addr value := by
  intro fuel
  induction fuel with
  | zero => intro attempt r h; exact Option.noConfusion h
  | succ fuel ih =>
    intro attempt r h
    simp only [strexdLoop] at h
    by_cases hs : strexOk attempt = true
    · rw [if_pos hs] at h
      cases Option.some.inj h
      rfl
    · rw [if_neg hs] at h
      exact ih (attempt + 1) r h

/-- C9: on the 32-bit ARM configuration without a direct atomic 64-bit store,
`Write64`'s exclusive-load/store-conditional loop repeats exactly until the
conditional store succeeds (one iteration per failed attempt, with no upper
bound — for every bound there is an interference pattern forcing more
iterations) and only then returns, with `value` stored. -/
theorem c9_llsc_retry_loop :
    (∀ (strexOk : Nat → Bool) (n : Nat),
      (∀ m, m < n → strexOk m = false) → strexOk n = true →
      ∀ (mem : Mem) (addr : Nat) (value : Int) (fuel : Nat), n < fuel →
        strexdLoop strexOk mem addr value fuel 0 = some (store mem addr value, n + 1)) ∧
    (∀ bound : Nat, ∃ strexOk : Nat → Bool, ∀ (mem : Mem) (addr : Nat) (value : Int),
      strexdLoop strexOk mem addr value (bound + 2) 0 =
        some (store mem addr value, bound + 2)) ∧
    (∀ (strexOk : Nat → Bool) (mem : Mem) (addr : Nat) (value : Int)
      (fuel : Nat) (r : Mem × Nat),
      strexdLoop strexOk mem addr value fuel 0 = some r → r.1 = store mem addr value) := by
  refine ⟨?_, ?_, ?_⟩
  · intro strexOk n hfail hs mem addr value fuel hfuel
    have := strexdLoop_first_success strexOk mem addr value n fuel 0
      (fun m _ hm => hfail m (by omega)) (by simpa using hs) hfuel
    simpa using this
  · intro bound
    refine ⟨fun m => decide (bound + 1 ≤ m), fun mem addr value => ?_⟩
    have := strexdLoop_first_success (fun m => decide (bound + 1 ≤ m)) mem addr value
      (bound + 1) (bound + 2) 0 (fun m _ hm => by simp; omega) (by simp) (by omega)
    simpa using this
  · intro strexOk mem addr value fuel r h
    exact strexdLoop_stores strexOk mem addr value fuel 0 r h

/-- Witness for C9: an interference pattern whose first successful strexd is
attempt 2 makes the loop run 3 iterations and store the value. -/
theorem c9_llsc_retry_loop_witness :
    strexdLoop (fun m => decide (2 ≤ m)) (fun _ => 0) 5 42 10 0 =
      some (store (fun _ => 0) 5 42, 3) :=
  c9_llsc_retry_loop.1 (fun m => decide (2 ≤ m)) 2
    (by intro m hm; simp; omega) (by simp) (fun _ => 0) 5 42 10 (by omega)

/-- Helper: facility operations never change the lifecycle state (none adds or
removes a pool entry). -/
theorem runOps_preserves (ops : List FacilityOp) :
    ∀ s : FacilityState, runOps ops s = s := by
  induction ops with
  | nil => intro s; rfl
  | cons op rest ih => intro s; exact ih s

/-- C10: with the fallback selected, `Startup` creates a pool of exactly
`kSwapMutexCount` = 32 locks, and after any sequence of facility operations
the pool still has exactly 32 locks — constant and non-zero while active. -/
theorem c10_pool_fixed_size (ops : List FacilityOp) :
    kSwapMutexCount = 32 ∧
    runOps ops (Startup true) = FacilityState.active kSwapMutexCount ∧
    0 < kSwapMutexCount := by
  refine ⟨rfl, ?_, by decide⟩
  rw [runOps_preserves]
  rfl
